import Mathlib

/-!
Verification of the schema-propagation shim in
tenant_schemas/contrib/celery.py.

The module defines two hook points against external frameworks:

* TenantTask._add_current_schema inserts the connection's current schema
  name into a task's kwargs dict under the reserved key "_schema_name"
  via dict.setdefault; apply_async and apply call it before delegating
  to the Celery base class.
* switch_schema, connected to the task_prerun signal, pops
  "_schema_name" from kwargs (defaulting to get_public_schema_name()),
  looks the tenant up by schema name, and calls
  connection.set_tenant(tenant, include_public=True).

Python kwargs dicts are embedded as association lists of string keys to
string values (the shim only ever threads the schema string through the
dict; all other entries are carried opaquely, and the claims only ever
compare their looked-up values).  Mutation of the dict and of the
ambient connection object is embedded as explicit state passing: each
operation returns the post-state of the objects it mutates in place.
-/

/-- A kwargs dict: insertion-ordered string-keyed association list with
no duplicate keys in any state reachable from a real Python dict.
Lookup returns the first matching entry. -/
abbrev Kwargs := List (String × String)

/-- Dict lookup: value of the first entry with the given key. -/
def kwargs_get : Kwargs → String → Option String
  | [], _ => none
  | (k, v) :: rest, key => if k = key then some v else kwargs_get rest key

/-- Dict membership test, as used by setdefault. -/
def kwargs_contains (d : Kwargs) (key : String) : Bool :=
  (kwargs_get d key).isSome

/-- dict.setdefault(key, v): if the key is present the dict is
unchanged, otherwise the pair is appended (Python dicts append new keys
at the end of the insertion order). -/
def kwargs_setdefault (d : Kwargs) (key v : String) : Kwargs :=
  if kwargs_contains d key then d else d ++ [(key, v)]

/-- Removal of every entry carrying the given key (a Python dict holds
the key at most once; on such dicts this is exactly del d[key]). -/
def kwargs_remove : Kwargs → String → Kwargs
  | [], _ => []
  | (k, v) :: rest, key =>
      if k = key then kwargs_remove rest key
      else (k, v) :: kwargs_remove rest key

/-- dict.pop(key, dflt): returns the stored value (or the default when
the key is absent) together with the post-state of the dict. -/
def kwargs_pop (d : Kwargs) (key dflt : String) : String × Kwargs :=
  match kwargs_get d key with
  | some v => (v, kwargs_remove d key)
  | none => (dflt, d)

/-- A tenant row of the configured tenant model. -/
structure Tenant where
  schema_name : String
deriving DecidableEq, Repr

/-- The ambient Django database connection: its active schema name and
the tenant object currently set on it. -/
structure Connection where
  schema_name : String
  tenant : Option Tenant
deriving DecidableEq, Repr

/-- Modelled from the spec: get_public_schema_name (tenant_schemas.utils,
not under src/) returns the well-known public namespace used as the
default when no tenant context is active. -/
def get_public_schema_name : String := "public"

/-- Modelled from the spec: connection.set_tenant(tenant, include_public)
(the ORM's context switch, owned by the surrounding framework) switches
the active connection's tenant context, making the tenant's schema the
connection's active schema. -/
def Connection.set_tenant (conn : Connection) (t : Tenant)
    (include_public : Bool) : Connection :=
  { conn with tenant := some t, schema_name := t.schema_name }

/-- The exception raised by the ORM lookup when no tenant matches. -/
inductive TenantLookupError where
  | DoesNotExist (schema_name : String)
deriving DecidableEq, Repr

/-- First tenant in the database whose schema_name matches. -/
def tenants_find : List Tenant → String → Option Tenant
  | [], _ => none
  | t :: rest, s => if t.schema_name = s then some t else tenants_find rest s

/-- Modelled from the spec: get_tenant_model().objects.get(schema_name=s)
(the tenant model lives outside src/) is a tenant lookup by schema name
that raises DoesNotExist when no tenant carries the name.  schema_name
is unique on the tenant model, so the lookup is by first match. -/
def objects_get (db : List Tenant) (s : String) : Except TenantLookupError Tenant :=
  match tenants_find db s with
  | some t => Except.ok t
  | none => Except.error (TenantLookupError.DoesNotExist s)

/-- Observable outcome of the task_prerun handler: the post-state of the
ambient connection, the post-state of the kwargs dict, and the exception
propagating out of the handler (none on success). -/
structure PrerunResult where
  conn : Connection
  kwargs : Kwargs
  exc : Option TenantLookupError
deriving DecidableEq, Repr

/-- switch_schema(kwargs): pops "_schema_name" from the kwargs (with the
public schema name as default), looks the tenant up by that schema name,
and sets it on the connection.  A lookup failure propagates after the
pop has already mutated kwargs and before the connection is touched. -/
def switch_schema (db : List Tenant) (conn : Connection) (kwargs : Kwargs) :
    PrerunResult :=
  let popped := kwargs_pop kwargs "_schema_name" get_public_schema_name
  match objects_get db popped.1 with
  | Except.error e => ⟨conn, popped.2, some e⟩
  | Except.ok tenant => ⟨conn.set_tenant tenant true, popped.2, none⟩

/-- TenantTask._add_current_schema(kwds):
kwds.setdefault("_schema_name", connection.schema_name).  The returned
dict is the post-state of the caller's dict, mutated in place. -/
def TenantTask_add_current_schema (conn : Connection) (kwds : Kwargs) : Kwargs :=
  kwargs_setdefault kwds "_schema_name" conn.schema_name

/-- TenantTask.apply_async: adds the current schema to kwargs, then
delegates to the Celery base class.  The returned dict is both the dict
handed to the base class and the caller's own dict after the call (the
same object). -/
def TenantTask_apply_async (conn : Connection) (kwargs : Kwargs) : Kwargs :=
  TenantTask_add_current_schema conn kwargs

/-- TenantTask.apply: adds the current schema to kwargs, then delegates
to the Celery base class, exactly as apply_async does. -/
def TenantTask_apply (conn : Connection) (kwargs : Kwargs) : Kwargs :=
  TenantTask_add_current_schema conn kwargs

/-- The kwargs parameter of apply_async defaults to a single mutable
dict shared by every call that omits kwargs.  This folds a sequence of
such calls (one per connection state at call time) over the shared
default dict, which starts out empty at module load. -/
def apply_async_default_sequence (conns : List Connection) : Kwargs :=
  conns.foldl (fun d c => TenantTask_apply_async c d) []

/-! Basic lemmas about the dict operations. -/

theorem kwargs_get_append (d1 d2 : Kwargs) (key : String) :
    kwargs_get (d1 ++ d2) key =
      ((kwargs_get d1 key).rec (kwargs_get d2 key) (fun v => some v)) := by
  induction d1 with
  | nil => simp [kwargs_get]
  | cons p rest ih =>
      obtain ⟨k, v⟩ := p
      by_cases h : k = key <;> simp [kwargs_get, h, ih]

theorem kwargs_get_setdefault_absent (d : Kwargs) (key v : String)
    (h : kwargs_get d key = none) :
    kwargs_get (kwargs_setdefault d key v) key = some v := by
  simp only [kwargs_setdefault, kwargs_contains, h, Option.isSome_none,
    if_false, Bool.false_eq_true]
  rw [kwargs_get_append, h]
  simp [kwargs_get]

theorem kwargs_setdefault_present (d : Kwargs) (key v w : String)
    (h : kwargs_get d key = some v) :
    kwargs_setdefault d key w = d := by
  simp [kwargs_setdefault, kwargs_contains, h]

theorem kwargs_get_setdefault_other (d : Kwargs) (k v key : String)
    (h : key ≠ k) :
    kwargs_get (kwargs_setdefault d k v) key = kwargs_get d key := by
  unfold kwargs_setdefault
  by_cases hc : kwargs_contains d k = true
  · simp [hc]
  · simp only [hc, if_false, Bool.false_eq_true]
    rw [kwargs_get_append]
    cases hg : kwargs_get d key with
    | some w => rfl
    | none => simp [kwargs_get, Ne.symm h]

theorem kwargs_get_remove_self (d : Kwargs) (key : String) :
    kwargs_get (kwargs_remove d key) key = none := by
  induction d with
  | nil => simp [kwargs_remove, kwargs_get]
  | cons p rest ih =>
      obtain ⟨k, v⟩ := p
      by_cases h : k = key <;> simp [kwargs_remove, kwargs_get, h, ih]

theorem kwargs_get_remove_other (d : Kwargs) (k key : String) (h : key ≠ k) :
    kwargs_get (kwargs_remove d k) key = kwargs_get d key := by
  have hk : k ≠ key := Ne.symm h
  induction d with
  | nil => simp [kwargs_remove]
  | cons p rest ih =>
      obtain ⟨a, v⟩ := p
      by_cases ha : a = k
      · subst ha
        simp [kwargs_remove, kwargs_get, hk, ih]
      · simp [kwargs_remove, kwargs_get, ha, ih]

theorem kwargs_pop_fst (d : Kwargs) (key dflt : String) :
    (kwargs_pop d key dflt).1 = (kwargs_get d key).getD dflt := by
  unfold kwargs_pop
  cases h : kwargs_get d key <;> simp

theorem kwargs_pop_snd_self (d : Kwargs) (key dflt : String) :
    kwargs_get (kwargs_pop d key dflt).2 key = none := by
  unfold kwargs_pop
  cases h : kwargs_get d key with
  | none => simpa using h
  | some v => simpa using kwargs_get_remove_self d key

theorem kwargs_pop_snd_other (d : Kwargs) (k dflt key : String) (h : key ≠ k) :
    kwargs_get (kwargs_pop d k dflt).2 key = kwargs_get d key := by
  unfold kwargs_pop
  cases hg : kwargs_get d k with
  | none => rfl
  | some v => simpa using kwargs_get_remove_other d k key h

theorem tenants_find_schema_name (db : List Tenant) (s : String) (t : Tenant)
    (h : tenants_find db s = some t) : t.schema_name = s := by
  induction db with
  | nil => simp [tenants_find] at h
  | cons a rest ih =>
      by_cases ha : a.schema_name = s
      · simp only [tenants_find, ha, if_true] at h
        cases h
        exact ha
      · simp only [tenants_find, ha, if_false] at h
        exact ih h

theorem objects_get_ok (db : List Tenant) (s : String) (t : Tenant)
    (h : objects_get db s = Except.ok t) : t.schema_name = s := by
  unfold objects_get at h
  cases hf : tenants_find db s with
  | none => simp [hf] at h
  | some u =>
      rw [hf] at h
      cases h
      exact tenants_find_schema_name db s t hf

theorem switch_schema_of_get_some (db : List Tenant) (conn : Connection)
    (kwargs : Kwargs) (s : String) (t : Tenant)
    (hget : kwargs_get kwargs "_schema_name" = some s)
    (ht : objects_get db s = Except.ok t) :
    switch_schema db conn kwargs =
      ⟨conn.set_tenant t true, kwargs_remove kwargs "_schema_name", none⟩ := by
  unfold switch_schema kwargs_pop
  rw [hget]
  simp only
  rw [ht]

theorem switch_schema_of_get_none (db : List Tenant) (conn : Connection)
    (kwargs : Kwargs)
    (hget : kwargs_get kwargs "_schema_name" = none) :
    switch_schema db conn kwargs =
      (match objects_get db get_public_schema_name with
        | Except.error e => ⟨conn, kwargs, some e⟩
        | Except.ok t => ⟨conn.set_tenant t true, kwargs, none⟩) := by
  unfold switch_schema kwargs_pop
  rw [hget]

theorem switch_schema_kwargs_eq (db : List Tenant) (conn : Connection)
    (kwargs : Kwargs) :
    (switch_schema db conn kwargs).kwargs =
      (kwargs_pop kwargs "_schema_name" get_public_schema_name).2 := by
  unfold switch_schema
  dsimp only
  cases objects_get db (kwargs_pop kwargs "_schema_name" get_public_schema_name).1 <;> rfl

theorem switch_schema_conn_of_error (db : List Tenant) (conn : Connection)
    (kwargs : Kwargs) (e : TenantLookupError)
    (h : objects_get db (kwargs_pop kwargs "_schema_name" get_public_schema_name).1
          = Except.error e) :
    switch_schema db conn kwargs =
      ⟨conn, (kwargs_pop kwargs "_schema_name" get_public_schema_name).2, some e⟩ := by
  unfold switch_schema
  dsimp only
  rw [h]

/-! Claim theorems. -/

/-- Claim C1: round-trip of schema propagation.  A task enqueued via
TenantTask.apply_async or TenantTask.apply while the connection's
current schema is "tenant_a" (with "_schema_name" not already in
kwargs), once the prerun handler switch_schema runs on the resulting
kwargs, executes with the connection switched to the tenant whose
schema_name is "tenant_a": the active schema during execution is
"tenant_a". -/
theorem C1_roundtrip_schema_propagation (db : List Tenant)
    (conn workerConn : Connection) (kwargs : Kwargs) (t : Tenant)
    (hS : conn.schema_name = "tenant_a")
    (habs : kwargs_get kwargs "_schema_name" = none)
    (ht : objects_get db "tenant_a" = Except.ok t) :
    ((switch_schema db workerConn (TenantTask_apply_async conn kwargs)).exc = none ∧
     (switch_schema db workerConn (TenantTask_apply_async conn kwargs)).conn.tenant = some t ∧
     (switch_schema db workerConn (TenantTask_apply_async conn kwargs)).conn.schema_name = "tenant_a") ∧
    ((switch_schema db workerConn (TenantTask_apply conn kwargs)).exc = none ∧
     (switch_schema db workerConn (TenantTask_apply conn kwargs)).conn.tenant = some t ∧
     (switch_schema db workerConn (TenantTask_apply conn kwargs)).conn.schema_name = "tenant_a") := by
  have hget : kwargs_get (TenantTask_add_current_schema conn kwargs) "_schema_name"
      = some "tenant_a" := by
    rw [← hS]
    exact kwargs_get_setdefault_absent kwargs "_schema_name" conn.schema_name habs
  have hsw := switch_schema_of_get_some db workerConn
    (TenantTask_add_current_schema conn kwargs) "tenant_a" t hget ht
  have hts := objects_get_ok db "tenant_a" t ht
  refine ⟨?_, ?_⟩ <;>
    simp [TenantTask_apply_async, TenantTask_apply, hsw, Connection.set_tenant, hts]

/-- Claim C1 witness: concrete round-trip with one tenant "tenant_a". -/
theorem C1_roundtrip_schema_propagation_witness :
    ((switch_schema [⟨"tenant_a"⟩] ⟨"public", none⟩
        (TenantTask_apply_async ⟨"tenant_a", none⟩ [("x", "1")])).exc = none ∧
     (switch_schema [⟨"tenant_a"⟩] ⟨"public", none⟩
        (TenantTask_apply_async ⟨"tenant_a", none⟩ [("x", "1")])).conn.tenant = some ⟨"tenant_a"⟩ ∧
     (switch_schema [⟨"tenant_a"⟩] ⟨"public", none⟩
        (TenantTask_apply_async ⟨"tenant_a", none⟩ [("x", "1")])).conn.schema_name = "tenant_a") ∧
    ((switch_schema [⟨"tenant_a"⟩] ⟨"public", none⟩
        (TenantTask_apply ⟨"tenant_a", none⟩ [("x", "1")])).exc = none ∧
     (switch_schema [⟨"tenant_a"⟩] ⟨"public", none⟩
        (TenantTask_apply ⟨"tenant_a", none⟩ [("x", "1")])).conn.tenant = some ⟨"tenant_a"⟩ ∧
     (switch_schema [⟨"tenant_a"⟩] ⟨"public", none⟩
        (TenantTask_apply ⟨"tenant_a", none⟩ [("x", "1")])).conn.schema_name = "tenant_a") :=
  C1_roundtrip_schema_propagation [⟨"tenant_a"⟩] ⟨"tenant_a", none⟩ ⟨"public", none⟩
    [("x", "1")] ⟨"tenant_a"⟩ rfl (by decide) rfl

/-- Claim C2 counterexample: the reserved entry does not always equal
the connection's current schema at enqueue time.  With the connection on
"tenant_a" and a caller-supplied kwargs dict already carrying
"_schema_name" = "tenant_b", apply_async leaves "tenant_b" in place, so
the entry differs from the current schema "tenant_a". -/
theorem C2_reserved_entry_counterexample :
    kwargs_get (TenantTask_apply_async ⟨"tenant_a", none⟩
        [("_schema_name", "tenant_b")]) "_schema_name" = some "tenant_b" ∧
    ¬ (kwargs_get (TenantTask_apply_async ⟨"tenant_a", none⟩
        [("_schema_name", "tenant_b")]) "_schema_name" = some "tenant_a") := by
  constructor <;> decide

/-- Claim C2 (amended): for every call to TenantTask.apply_async or
TenantTask.apply made while the connection's current schema is S, the
reserved kwargs entry "_schema_name" equals S at enqueue time, provided
"_schema_name" was not already present in the kwargs dict at the time of
the call. -/
theorem C2_reserved_entry_equals_schema (conn : Connection) (kwargs : Kwargs)
    (habs : kwargs_get kwargs "_schema_name" = none) :
    kwargs_get (TenantTask_apply_async conn kwargs) "_schema_name"
      = some conn.schema_name ∧
    kwargs_get (TenantTask_apply conn kwargs) "_schema_name"
      = some conn.schema_name :=
  ⟨kwargs_get_setdefault_absent kwargs "_schema_name" conn.schema_name habs,
   kwargs_get_setdefault_absent kwargs "_schema_name" conn.schema_name habs⟩

/-- Claim C2 (amended) witness: enqueue under "tenant_a" with a kwargs
dict not containing the reserved key. -/
theorem C2_reserved_entry_equals_schema_witness :
    kwargs_get (TenantTask_apply_async ⟨"tenant_a", none⟩ [("x", "1")])
        "_schema_name" = some "tenant_a" ∧
    kwargs_get (TenantTask_apply ⟨"tenant_a", none⟩ [("x", "1")])
        "_schema_name" = some "tenant_a" :=
  C2_reserved_entry_equals_schema ⟨"tenant_a", none⟩ [("x", "1")] (by decide)

/-- Claim C3: apply_async and apply insert the connection's current
schema under "_schema_name" only if that key is not already present; a
caller-supplied "_schema_name" entry is left unchanged (indeed the whole
dict is unchanged in that case). -/
theorem C3_insert_only_if_absent (conn : Connection) (kwargs : Kwargs) :
    (kwargs_get kwargs "_schema_name" = none →
      kwargs_get (TenantTask_apply_async conn kwargs) "_schema_name"
          = some conn.schema_name ∧
      kwargs_get (TenantTask_apply conn kwargs) "_schema_name"
          = some conn.schema_name) ∧
    (∀ v, kwargs_get kwargs "_schema_name" = some v →
      TenantTask_apply_async conn kwargs = kwargs ∧
      TenantTask_apply conn kwargs = kwargs) := by
  constructor
  · intro habs
    exact ⟨kwargs_get_setdefault_absent kwargs "_schema_name" conn.schema_name habs,
           kwargs_get_setdefault_absent kwargs "_schema_name" conn.schema_name habs⟩
  · intro v hv
    exact ⟨kwargs_setdefault_present kwargs "_schema_name" v conn.schema_name hv,
           kwargs_setdefault_present kwargs "_schema_name" v conn.schema_name hv⟩

/-- Claim C3 witness: both branches at concrete inputs: insertion when
the key is absent, preservation when the caller already set it. -/
theorem C3_insert_only_if_absent_witness :
    (kwargs_get (TenantTask_apply_async ⟨"tenant_a", none⟩ [("x", "1")])
        "_schema_name" = some "tenant_a" ∧
     kwargs_get (TenantTask_apply ⟨"tenant_a", none⟩ [("x", "1")])
        "_schema_name" = some "tenant_a") ∧
    (TenantTask_apply_async ⟨"tenant_a", none⟩ [("_schema_name", "tenant_b")]
        = [("_schema_name", "tenant_b")] ∧
     TenantTask_apply ⟨"tenant_a", none⟩ [("_schema_name", "tenant_b")]
        = [("_schema_name", "tenant_b")]) :=
  ⟨(C3_insert_only_if_absent ⟨"tenant_a", none⟩ [("x", "1")]).1 (by decide),
   (C3_insert_only_if_absent ⟨"tenant_a", none⟩ [("_schema_name", "tenant_b")]).2
      "tenant_b" (by decide)⟩

/-- Claim C4: after the prerun handler switch_schema has run, the
reserved key "_schema_name" is absent from the kwargs the task body
sees, whether or not it was present initially, and on the error path as
well as on success. -/
theorem C4_reserved_key_absent_after_prerun (db : List Tenant)
    (conn : Connection) (kwargs : Kwargs) :
    kwargs_get (switch_schema db conn kwargs).kwargs "_schema_name" = none := by
  rw [switch_schema_kwargs_eq]
  exact kwargs_pop_snd_self kwargs "_schema_name" get_public_schema_name

/-- Claim C5: when "_schema_name" is absent from kwargs at run time,
switch_schema resolves the schema to get_public_schema_name() and
switches the connection to the tenant carrying that public name. -/
theorem C5_absent_defaults_to_public (db : List Tenant) (conn : Connection)
    (kwargs : Kwargs) (t : Tenant)
    (habs : kwargs_get kwargs "_schema_name" = none)
    (ht : objects_get db get_public_schema_name = Except.ok t) :
    switch_schema db conn kwargs = ⟨conn.set_tenant t true, kwargs, none⟩ ∧
    t.schema_name = get_public_schema_name := by
  refine ⟨?_, objects_get_ok db get_public_schema_name t ht⟩
  rw [switch_schema_of_get_none db conn kwargs habs, ht]

/-- Claim C5 witness: a kwargs dict without the reserved key and a
database holding the public tenant. -/
theorem C5_absent_defaults_to_public_witness :
    switch_schema [⟨"public"⟩] ⟨"tenant_a", none⟩ [("x", "1")]
        = ⟨Connection.set_tenant ⟨"tenant_a", none⟩ ⟨"public"⟩ true, [("x", "1")], none⟩ ∧
    Tenant.schema_name ⟨"public"⟩ = get_public_schema_name :=
  C5_absent_defaults_to_public [⟨"public"⟩] ⟨"tenant_a", none⟩ [("x", "1")]
    ⟨"public"⟩ (by decide) rfl

/-- Claim C6: switch_schema raises if and only if no tenant with the
resolved schema name exists, and the exception propagating out is
exactly the one the ORM lookup raised, untranslated. -/
theorem C6_raises_iff_no_tenant (db : List Tenant) (conn : Connection)
    (kwargs : Kwargs) :
    ((switch_schema db conn kwargs).exc ≠ none ↔
      tenants_find db (kwargs_pop kwargs "_schema_name" get_public_schema_name).1 = none) ∧
    (∀ e, objects_get db (kwargs_pop kwargs "_schema_name" get_public_schema_name).1
          = Except.error e →
      (switch_schema db conn kwargs).exc = some e) := by
  unfold switch_schema
  dsimp only
  constructor
  · unfold objects_get
    cases hf : tenants_find db (kwargs_pop kwargs "_schema_name" get_public_schema_name).1 <;>
      simp
  · intro e he
    rw [he]

/-- Claim C6 witness: an empty tenant database makes the handler raise
DoesNotExist for the popped schema name, verbatim from the lookup. -/
theorem C6_raises_iff_no_tenant_witness :
    (switch_schema [] ⟨"public", none⟩ [("_schema_name", "tenant_a")]).exc
      = some (TenantLookupError.DoesNotExist "tenant_a") :=
  (C6_raises_iff_no_tenant [] ⟨"public", none⟩ [("_schema_name", "tenant_a")]).2
    (TenantLookupError.DoesNotExist "tenant_a") rfl

/-- Claim C7: frame property.  Enqueue (apply_async and apply) and the
prerun handler modify at most the key "_schema_name": the looked-up
value of every other key is unchanged. -/
theorem C7_frame_other_keys_unchanged (db : List Tenant) (conn : Connection)
    (kwargs : Kwargs) (key : String) (h : key ≠ "_schema_name") :
    kwargs_get (TenantTask_apply_async conn kwargs) key = kwargs_get kwargs key ∧
    kwargs_get (TenantTask_apply conn kwargs) key = kwargs_get kwargs key ∧
    kwargs_get (switch_schema db conn kwargs).kwargs key = kwargs_get kwargs key := by
  refine ⟨?_, ?_, ?_⟩
  · exact kwargs_get_setdefault_other kwargs "_schema_name" conn.schema_name key h
  · exact kwargs_get_setdefault_other kwargs "_schema_name" conn.schema_name key h
  · rw [switch_schema_kwargs_eq]
    exact kwargs_pop_snd_other kwargs "_schema_name" get_public_schema_name key h

/-- Claim C7 witness: the entry under "x" survives enqueue and the
prerun handler unchanged. -/
theorem C7_frame_other_keys_unchanged_witness :
    kwargs_get (TenantTask_apply_async ⟨"tenant_a", none⟩
        [("x", "1"), ("_schema_name", "tenant_b")]) "x"
      = kwargs_get [("x", "1"), ("_schema_name", "tenant_b")] "x" ∧
    kwargs_get (TenantTask_apply ⟨"tenant_a", none⟩
        [("x", "1"), ("_schema_name", "tenant_b")]) "x"
      = kwargs_get [("x", "1"), ("_schema_name", "tenant_b")] "x" ∧
    kwargs_get (switch_schema [⟨"tenant_b"⟩] ⟨"tenant_a", none⟩
        [("x", "1"), ("_schema_name", "tenant_b")]).kwargs "x"
      = kwargs_get [("x", "1"), ("_schema_name", "tenant_b")] "x" :=
  C7_frame_other_keys_unchanged [⟨"tenant_b"⟩] ⟨"tenant_a", none⟩
    [("x", "1"), ("_schema_name", "tenant_b")] "x" (by decide)

/-- Claim C8: apply_async and apply mutate the caller-supplied kwargs
dict in place (embedded as the returned post-state of that same dict),
so after the call returns the caller's dict contains a "_schema_name"
entry. -/
theorem C8_caller_dict_gains_reserved_key (conn : Connection) (kwargs : Kwargs) :
    (kwargs_get (TenantTask_apply_async conn kwargs) "_schema_name").isSome = true ∧
    (kwargs_get (TenantTask_apply conn kwargs) "_schema_name").isSome = true := by
  cases hg : kwargs_get kwargs "_schema_name" with
  | some v =>
      constructor <;>
        simp [TenantTask_apply_async, TenantTask_apply, TenantTask_add_current_schema,
          kwargs_setdefault_present kwargs "_schema_name" v conn.schema_name hg, hg]
  | none =>
      constructor <;>
        simp [TenantTask_apply_async, TenantTask_apply, TenantTask_add_current_schema,
          kwargs_get_setdefault_absent kwargs "_schema_name" conn.schema_name hg]

theorem apply_async_default_fold_preserves (rest : List Connection)
    (d : Kwargs) (v : String)
    (h : kwargs_get d "_schema_name" = some v) :
    kwargs_get (rest.foldl (fun d c => TenantTask_apply_async c d) d)
        "_schema_name" = some v := by
  induction rest generalizing d with
  | nil => simpa using h
  | cons a as ih =>
      simp only [List.foldl_cons]
      have hfix : TenantTask_apply_async a d = d :=
        kwargs_setdefault_present d "_schema_name" v a.schema_name h
      rw [hfix]
      exact ih d h

/-- Claim C9: all calls to apply_async that omit kwargs share the single
mutable default dict.  After the first such call stores the schema of
the connection current at that call, every later kwargs-omitting call
finds the key present and reuses that first schema: the shared dict's
entry stays at the first call's schema across any sequence of later
calls, and a later call leaves the shared dict entirely unchanged
whatever the connection's schema is at that point. -/
theorem C9_shared_default_dict_reuses_first_schema (c : Connection)
    (rest : List Connection) :
    kwargs_get (apply_async_default_sequence (c :: rest)) "_schema_name"
      = some c.schema_name ∧
    ∀ c2, TenantTask_apply_async c2 (apply_async_default_sequence (c :: rest))
      = apply_async_default_sequence (c :: rest) := by
  have hfirst : kwargs_get (TenantTask_apply_async c []) "_schema_name"
      = some c.schema_name :=
    kwargs_get_setdefault_absent [] "_schema_name" c.schema_name rfl
  have hmain : kwargs_get (apply_async_default_sequence (c :: rest)) "_schema_name"
      = some c.schema_name := by
    unfold apply_async_default_sequence
    rw [List.foldl_cons]
    exact apply_async_default_fold_preserves rest (TenantTask_apply_async c [])
      c.schema_name hfirst
  exact ⟨hmain, fun c2 =>
    kwargs_setdefault_present _ "_schema_name" c.schema_name c2.schema_name hmain⟩

/-- Claim C10: when the tenant lookup raises, set_tenant is never
reached, so the connection is unchanged, but the kwargs dict has already
been mutated: "_schema_name" was popped before the lookup, so the
handler is not atomic with respect to kwargs on error. -/
theorem C10_error_connection_unchanged_kwargs_popped (db : List Tenant)
    (conn : Connection) (kwargs : Kwargs) (e : TenantLookupError)
    (h : objects_get db (kwargs_pop kwargs "_schema_name" get_public_schema_name).1
          = Except.error e) :
    (switch_schema db conn kwargs).conn = conn ∧
    (switch_schema db conn kwargs).kwargs
      = (kwargs_pop kwargs "_schema_name" get_public_schema_name).2 ∧
    kwargs_get (switch_schema db conn kwargs).kwargs "_schema_name" = none ∧
    (switch_schema db conn kwargs).exc = some e := by
  rw [switch_schema_conn_of_error db conn kwargs e h]
  exact ⟨rfl, rfl, kwargs_pop_snd_self kwargs "_schema_name" get_public_schema_name, rfl⟩

/-- Claim C10 witness: empty tenant database, kwargs carrying the
reserved key and one other entry; the reserved key is gone from the
post-state while the connection survives untouched. -/
theorem C10_error_connection_unchanged_kwargs_popped_witness :
    (switch_schema [] ⟨"tenant_a", none⟩
        [("_schema_name", "missing"), ("x", "1")]).conn = ⟨"tenant_a", none⟩ ∧
    (switch_schema [] ⟨"tenant_a", none⟩
        [("_schema_name", "missing"), ("x", "1")]).kwargs
      = (kwargs_pop [("_schema_name", "missing"), ("x", "1")]
          "_schema_name" get_public_schema_name).2 ∧
    kwargs_get (switch_schema [] ⟨"tenant_a", none⟩
        [("_schema_name", "missing"), ("x", "1")]).kwargs "_schema_name" = none ∧
    (switch_schema [] ⟨"tenant_a", none⟩
        [("_schema_name", "missing"), ("x", "1")]).exc
      = some (TenantLookupError.DoesNotExist "missing") :=
  C10_error_connection_unchanged_kwargs_popped [] ⟨"tenant_a", none⟩
    [("_schema_name", "missing"), ("x", "1")]
    (TenantLookupError.DoesNotExist "missing") rfl
